import Mathlib

/-!
Verification of the secure API access layer of the diabetes-m-mcp repository:
EncryptionService (src/security/encryption.ts), the retrying rate-limited
HTTP client (src/api/client.ts with src/api/endpoints.ts), EncryptedCache
(src/cache/encrypted-cache.ts), CredentialsManager (src/security/credentials.ts),
the config-directory layout (src/types/security.ts, src/security/keyring.ts)
and the setup_credentials tool (src/tools/setup-credentials.ts).

Modelling conventions of the shallow embedding:
- Byte buffers are represented as `List Nat`.  Base64 transport
  (`Buffer.toString` / `Buffer.from` in base64 mode) is a bijection between
  byte sequences and their base64 strings, so the `data` field of an
  encrypted blob is modelled directly as the decoded byte list; the decoded
  payload length of the spec is then just `data.length`.
- The node:crypto primitives (PBKDF2, AES-256-GCM) are external to the
  repository; they are modelled by a `CryptoModel` parameter.  GCM
  decryption with a 128-bit tag succeeds exactly when the supplied tag
  equals the tag of the ciphertext under the derived key and IV, which is
  the standard contract of authenticated encryption; `decipher.final`
  throwing on tag mismatch is modelled as the decrypt function returning
  `none`.
- Randomness (`randomBytes`) is externalized: the salt and IV are explicit
  arguments of `encrypt`, constrained only by their lengths.
- Thrown JavaScript exceptions are modelled as `none` / `Except.error`
  results; an `Option` or `Except` failure carries no data, which captures
  the fact that a failed decrypt never yields partial plaintext.
-/

namespace DiabetesM

/-- Model of SecurityConfig from src/types/security.ts. -/
structure SecurityConfig where
  keySize : Nat
  ivSize : Nat
  saltSize : Nat
  tagSize : Nat
  pbkdf2Iterations : Nat
  cacheTtlMs : Nat
  rateLimit : Nat
  auditRetentionDays : Nat
deriving Repr, DecidableEq

/-- DEFAULT_SECURITY_CONFIG from src/types/security.ts. -/
def DEFAULT_SECURITY_CONFIG : SecurityConfig :=
  { keySize := 32
    ivSize := 16
    saltSize := 64
    tagSize := 16
    pbkdf2Iterations := 100000
    cacheTtlMs := 5 * 60 * 1000
    rateLimit := 1
    auditRetentionDays := 90 }

/-- EncryptedData from src/types/security.ts; `data` holds the
base64-decoded bytes (salt, iv, tag and ciphertext concatenated). -/
structure EncryptedData where
  data : List Nat
  version : Nat
  timestamp : String
deriving Repr, DecidableEq

/-- ENCRYPTION_VERSION constant from src/security/encryption.ts. -/
def ENCRYPTION_VERSION : Nat := 1

/-- Abstract model of the node:crypto primitives used by the repository.
`pbkdf2` takes password, salt, iteration count and key length.
`gcmEncode key iv plaintext` is the AES-256-GCM ciphertext, `gcmTag key iv
ciphertext` its 16-byte authentication tag, and `gcmDecode key iv
ciphertext` inverts `gcmEncode`. -/
structure CryptoModel where
  pbkdf2 : List Nat → List Nat → Nat → Nat → List Nat
  gcmEncode : List Nat → List Nat → List Nat → List Nat
  gcmDecode : List Nat → List Nat → List Nat → List Nat
  gcmTag : List Nat → List Nat → List Nat → List Nat

/-- The authentication tag of the GCM model is always 16 bytes, as for
AES-256-GCM with the default tag length used by the code. -/
def CryptoModel.TagLen16 (C : CryptoModel) : Prop :=
  ∀ key iv ct, (C.gcmTag key iv ct).length = 16

/-- GCM decryption inverts GCM encryption under the same key and IV. -/
def CryptoModel.Roundtrip (C : CryptoModel) : Prop :=
  ∀ key iv pt, C.gcmDecode key iv (C.gcmEncode key iv pt) = pt

/-- EncryptionService.encrypt from src/security/encryption.ts.  The random
salt and IV are passed explicitly; the combined buffer is
salt (64 bytes), then iv (16), then authTag (16), then the ciphertext,
tagged with version 1. -/
def EncryptionService.encrypt (C : CryptoModel) (config : SecurityConfig)
    (salt iv : List Nat) (plaintext masterKey : List Nat)
    (timestamp : String) : EncryptedData :=
  let key := C.pbkdf2 masterKey salt config.pbkdf2Iterations config.keySize
  let encrypted := C.gcmEncode key iv plaintext
  let authTag := C.gcmTag key iv encrypted
  { data := salt ++ iv ++ authTag ++ encrypted
    version := ENCRYPTION_VERSION
    timestamp := timestamp }

/-- The salt component extracted by EncryptionService.decrypt
(`combined.subarray(0, saltSize)`; `subarray` clamps exactly like
`List.take` and `List.drop`). -/
def decryptSalt (config : SecurityConfig) (ed : EncryptedData) : List Nat :=
  ed.data.take config.saltSize

/-- The IV component extracted by EncryptionService.decrypt. -/
def decryptIv (config : SecurityConfig) (ed : EncryptedData) : List Nat :=
  (ed.data.drop config.saltSize).take config.ivSize

/-- The authentication-tag component extracted by EncryptionService.decrypt. -/
def decryptAuthTag (config : SecurityConfig) (ed : EncryptedData) : List Nat :=
  (ed.data.drop (config.saltSize + config.ivSize)).take config.tagSize

/-- The ciphertext component extracted by EncryptionService.decrypt. -/
def decryptCiphertext (config : SecurityConfig) (ed : EncryptedData) : List Nat :=
  ed.data.drop (config.saltSize + config.ivSize + config.tagSize)

/-- EncryptionService.decrypt from src/security/encryption.ts.  Rejects a
version other than ENCRYPTION_VERSION, slices the fixed-width header,
re-derives the key with identical parameters and GCM-verifies; a thrown
error (wrong tag, hence corrupted data or wrong key) is modelled as `none`. -/
def EncryptionService.decrypt (C : CryptoModel) (config : SecurityConfig)
    (encryptedData : EncryptedData) (masterKey : List Nat) :
    Option (List Nat) :=
  if encryptedData.version ≠ ENCRYPTION_VERSION then none
  else
    let key := C.pbkdf2 masterKey (decryptSalt config encryptedData)
      config.pbkdf2Iterations config.keySize
    if decryptAuthTag config encryptedData =
        C.gcmTag key (decryptIv config encryptedData)
          (decryptCiphertext config encryptedData) then
      some (C.gcmDecode key (decryptIv config encryptedData)
        (decryptCiphertext config encryptedData))
    else none

/-- Slicing a concatenation of a 64-byte, a 16-byte, a 16-byte and a final
block at the fixed offsets of the blob header recovers the four blocks. -/
theorem header_slices (a b c d : List Nat) (ha : a.length = 64)
    (hb : b.length = 16) (hc : c.length = 16) :
    (a ++ (b ++ (c ++ d))).take 64 = a ∧
    ((a ++ (b ++ (c ++ d))).drop 64).take 16 = b ∧
    ((a ++ (b ++ (c ++ d))).drop 80).take 16 = c ∧
    (a ++ (b ++ (c ++ d))).drop 96 = d := by
  have hab : a ++ (b ++ (c ++ d)) = (a ++ b) ++ (c ++ d) := by
    rw [List.append_assoc]
  have habc : a ++ (b ++ (c ++ d)) = ((a ++ b) ++ c) ++ d := by
    rw [List.append_assoc, List.append_assoc]
  have h80 : (a ++ b).length = 80 := by
    rw [List.length_append, ha, hb]
  have h96 : ((a ++ b) ++ c).length = 96 := by
    rw [List.length_append, h80, hc]
  refine ⟨?_, ?_, ?_, ?_⟩
  · rw [← ha, List.take_left]
  · rw [← ha, List.drop_left, ← hb, List.take_left]
  · rw [hab, ← h80, List.drop_left, ← hc, List.take_left]
  · rw [habc, ← h96, List.drop_left]

/-- Decrypting a well-formed blob reduces to the GCM tag check on its
components. -/
theorem decrypt_components (C : CryptoModel) (salt iv tg ct k : List Nat)
    (ts : String) (hsalt : salt.length = 64) (hiv : iv.length = 16)
    (htg : tg.length = 16) :
    EncryptionService.decrypt C DEFAULT_SECURITY_CONFIG
        ⟨salt ++ iv ++ tg ++ ct, 1, ts⟩ k =
      (if tg = C.gcmTag (C.pbkdf2 k salt 100000 32) iv ct then
        some (C.gcmDecode (C.pbkdf2 k salt 100000 32) iv ct)
      else none) := by
  obtain ⟨e1, e2, e3, e4⟩ := header_slices salt iv tg ct hsalt hiv htg
  unfold EncryptionService.decrypt
  simp only [ENCRYPTION_VERSION, decryptSalt, decryptIv, decryptAuthTag,
    decryptCiphertext, DEFAULT_SECURITY_CONFIG, List.append_assoc]
  norm_num
  rw [e1, e2, e3, e4]

/-- Shared roundtrip lemma: decrypting an encrypted blob with the key it
was encrypted under recovers the plaintext, for any master key and any
salt and IV of the generated lengths. -/
theorem decrypt_encrypt_eq (C : CryptoModel) (p k salt iv : List Nat)
    (ts : String) (hsalt : salt.length = 64) (hiv : iv.length = 16)
    (htag : C.TagLen16) (hround : C.Roundtrip) :
    EncryptionService.decrypt C DEFAULT_SECURITY_CONFIG
      (EncryptionService.encrypt C DEFAULT_SECURITY_CONFIG salt iv p k ts) k
      = some p := by
  have henc : EncryptionService.encrypt C DEFAULT_SECURITY_CONFIG salt iv p k ts
      = ⟨salt ++ iv ++
          C.gcmTag (C.pbkdf2 k salt 100000 32) iv
            (C.gcmEncode (C.pbkdf2 k salt 100000 32) iv p) ++
          C.gcmEncode (C.pbkdf2 k salt 100000 32) iv p, 1, ts⟩ := by
    simp only [EncryptionService.encrypt, DEFAULT_SECURITY_CONFIG,
      ENCRYPTION_VERSION]
  rw [henc, decrypt_components C salt iv _ _ k ts hsalt hiv (htag _ _ _),
    if_pos rfl, hround]

/-- C1: decrypting an encrypted blob with the same 32-byte master key
recovers the plaintext exactly.  The salt and IV are arbitrary values of
the lengths produced by randomBytes(64) and randomBytes(16); the GCM
model satisfies the authenticated-encryption contract. -/
theorem c1_encrypt_decrypt_roundtrip (C : CryptoModel) (p k salt iv : List Nat)
    (ts : String) (hsalt : salt.length = 64) (hiv : iv.length = 16)
    (_hk : k.length = 32) (htag : C.TagLen16) (hround : C.Roundtrip) :
    EncryptionService.decrypt C DEFAULT_SECURITY_CONFIG
      (EncryptionService.encrypt C DEFAULT_SECURITY_CONFIG salt iv p k ts) k
      = some p :=
  decrypt_encrypt_eq C p k salt iv ts hsalt hiv htag hround

/-- A trivial but total instantiation of the crypto primitives, used to
evaluate theorems with hypotheses on concrete inputs. -/
def toyCrypto : CryptoModel :=
  { pbkdf2 := fun password salt _ keylen => (password ++ salt).take keylen
    gcmEncode := fun _ _ pt => pt
    gcmDecode := fun _ _ ct => ct
    gcmTag := fun key iv ct => List.replicate 16 ((key.sum + iv.sum + ct.sum) % 256) }

theorem toyCrypto_tagLen16 : toyCrypto.TagLen16 := by
  intro key iv ct
  simp [toyCrypto, CryptoModel.TagLen16]

theorem toyCrypto_roundtrip : toyCrypto.Roundtrip := by
  intro key iv pt
  simp [toyCrypto, CryptoModel.Roundtrip]

/-- Witness for C1 at a concrete plaintext, key, salt and IV. -/
theorem c1_witness :
    (List.replicate 64 7).length = 64 ∧
    (List.replicate 16 3).length = 16 ∧
    (List.replicate 32 5).length = 32 ∧
    EncryptionService.decrypt toyCrypto DEFAULT_SECURITY_CONFIG
      (EncryptionService.encrypt toyCrypto DEFAULT_SECURITY_CONFIG
        (List.replicate 64 7) (List.replicate 16 3) [10, 20, 30]
        (List.replicate 32 5) "t") (List.replicate 32 5) = some [10, 20, 30] :=
  ⟨by simp, by simp, by simp,
    c1_encrypt_decrypt_roundtrip toyCrypto [10, 20, 30] (List.replicate 32 5)
      (List.replicate 64 7) (List.replicate 16 3) "t" (by simp) (by simp)
      (by simp) toyCrypto_tagLen16 toyCrypto_roundtrip⟩

/-- C2: decrypt fails, returning no plaintext at all, whenever the version
is not 1, or the decoded payload is shorter than the 96-byte fixed header,
or the GCM authentication tag does not verify against the re-derived key. -/
theorem c2_decrypt_rejects (C : CryptoModel) (ed : EncryptedData)
    (k : List Nat) (htag : C.TagLen16)
    (h : ed.version ≠ 1 ∨ ed.data.length < 96 ∨
      decryptAuthTag DEFAULT_SECURITY_CONFIG ed ≠
        C.gcmTag
          (C.pbkdf2 k (decryptSalt DEFAULT_SECURITY_CONFIG ed) 100000 32)
          (decryptIv DEFAULT_SECURITY_CONFIG ed)
          (decryptCiphertext DEFAULT_SECURITY_CONFIG ed)) :
    EncryptionService.decrypt C DEFAULT_SECURITY_CONFIG ed k = none := by
  unfold EncryptionService.decrypt
  rcases h with hv | hshort | hmismatch
  · rw [if_pos]
    simpa [ENCRYPTION_VERSION] using hv
  · by_cases hv : ed.version ≠ ENCRYPTION_VERSION
    · rw [if_pos hv]
    · rw [if_neg hv]
      have hlen : (decryptAuthTag DEFAULT_SECURITY_CONFIG ed).length < 16 := by
        simp only [decryptAuthTag, DEFAULT_SECURITY_CONFIG, List.length_take,
          List.length_drop]
        omega
      rw [if_neg]
      intro heq
      rw [heq, htag] at hlen
      omega
  · by_cases hv : ed.version ≠ ENCRYPTION_VERSION
    · rw [if_pos hv]
    · rw [if_neg hv]
      simp only [DEFAULT_SECURITY_CONFIG] at hmismatch ⊢
      rw [if_neg hmismatch]

/-- Witness for C2 at a concrete blob with an unsupported version. -/
theorem c2_witness :
    ((2 : Nat) ≠ 1 ∨ ([] : List Nat).length < 96 ∨
      decryptAuthTag DEFAULT_SECURITY_CONFIG ⟨[], 2, ""⟩ ≠
        toyCrypto.gcmTag
          (toyCrypto.pbkdf2 [] (decryptSalt DEFAULT_SECURITY_CONFIG ⟨[], 2, ""⟩)
            100000 32)
          (decryptIv DEFAULT_SECURITY_CONFIG ⟨[], 2, ""⟩)
          (decryptCiphertext DEFAULT_SECURITY_CONFIG ⟨[], 2, ""⟩)) ∧
    EncryptionService.decrypt toyCrypto DEFAULT_SECURITY_CONFIG ⟨[], 2, ""⟩ []
      = none :=
  ⟨Or.inl (by decide),
    c2_decrypt_rejects toyCrypto ⟨[], 2, ""⟩ [] toyCrypto_tagLen16
      (Or.inl (by decide))⟩

/-! ## HTTP client: src/api/client.ts with the configuration of
src/api/endpoints.ts.

`DiabetesMClient.request` is modelled as a function of an environment that
fixes the outcome of each fetch attempt (indexed by the retry counter,
which increases by exactly one on every recursive self-call), whether
`authManager.ensureAuthenticated` succeeds (it throws when login fails, and
it is invoked before the try block of `request`, so such a throw escapes),
and the outcome of `authManager.handleAuthError` on a 401.  Awaited sleeps
(backoff and Retry-After) are recorded in a list; the result carries the
number of fetch calls performed.  A thrown exception is `Except.error`. -/

/-- RETRY_CONFIG shape from src/api/endpoints.ts. -/
structure RetryConfig where
  MAX_RETRIES : Nat
  INITIAL_DELAY : Nat
  BACKOFF_FACTOR : Nat
  MAX_DELAY : Nat
  RETRYABLE_STATUS_CODES : List Nat
deriving Repr

/-- RETRY_CONFIG values from src/api/endpoints.ts. -/
def RETRY_CONFIG : RetryConfig :=
  { MAX_RETRIES := 3
    INITIAL_DELAY := 1000
    BACKOFF_FACTOR := 2
    MAX_DELAY := 10000
    RETRYABLE_STATUS_CODES := [408, 429, 500, 502, 503, 504] }

/-- RATE_LIMIT shape from src/api/endpoints.ts. -/
structure RateLimitConfig where
  INTERVAL_MS : Nat
  MAX_PER_MINUTE : Nat
  BURST : Nat
deriving Repr

/-- RATE_LIMIT values from src/api/endpoints.ts. -/
def RATE_LIMIT : RateLimitConfig :=
  { INTERVAL_MS := 1000, MAX_PER_MINUTE := 30, BURST := 5 }

/-- The subset of ERROR_CODES from src/api/endpoints.ts used by request. -/
structure ErrorCodes where
  AUTHENTICATION_FAILED : String
  SESSION_EXPIRED : String
  RATE_LIMITED : String
  NETWORK_ERROR : String
  INVALID_RESPONSE : String
deriving Repr, DecidableEq

/-- ERROR_CODES values from src/api/endpoints.ts. -/
def ERROR_CODES : ErrorCodes :=
  { AUTHENTICATION_FAILED := "AUTH_FAILED"
    SESSION_EXPIRED := "SESSION_EXPIRED"
    RATE_LIMITED := "RATE_LIMITED"
    NETWORK_ERROR := "NETWORK_ERROR"
    INVALID_RESPONSE := "INVALID_RESPONSE" }

/-- ApiError from src/types/api.ts (details reduced to the body excerpt
carried by the InvalidResponse result). -/
structure ApiError where
  code : String
  message : String
  details : Option String
deriving Repr, DecidableEq

/-- The discriminated ApiResponse result type from src/types/api.ts; the
parsed payload is abstracted as a string. -/
structure ApiResponse where
  success : Bool
  data : Option String
  error : Option ApiError
  timestamp : String
deriving Repr, DecidableEq

/-- Outcome of one fetch call: an HTTP response (with status, the parsed
Retry-After value, the error body text and the result of response.json,
whose parse errors are thrown), a timeout abort, or a thrown network
error. -/
inductive FetchOutcome where
  | response (status : Nat) (retryAfterSecs : Nat) (bodyText : String)
      (jsonBody : Except String String)
  | abortError
  | networkError (message : String)

/-- Outcome of authManager.handleAuthError on a 401: re-authentication
succeeded, failed, or threw (its throw is caught by the catch block of
request). -/
inductive ReauthOutcome where
  | success
  | failure
  | thrown (message : String)

/-- Environment of one request: outcome of the fetch at each retry depth,
whether ensureAuthenticated succeeds, the handleAuthError outcome at each
retry depth, and the timestamp string. -/
structure RequestEnv where
  fetchAt : Nat → FetchOutcome
  ensureAuthOk : Bool
  reauthAt : Nat → ReauthOutcome
  nowIso : String

/-- response.ok of the fetch API: status in the range 200 to 299. -/
def statusOk (status : Nat) : Bool := decide (200 ≤ status ∧ status < 300)

/-- The exponential backoff delay of request:
min of INITIAL_DELAY times BACKOFF_FACTOR to the retryCount, and
MAX_DELAY. -/
def backoffDelay (retryCount : Nat) : Nat :=
  min (RETRY_CONFIG.INITIAL_DELAY * RETRY_CONFIG.BACKOFF_FACTOR ^ retryCount)
    RETRY_CONFIG.MAX_DELAY

/-- Result of a modelled request: the returned value or thrown exception,
the number of fetch calls performed, and the sleeps awaited. -/
structure ReqResult where
  outcome : Except String ApiResponse
  calls : Nat
  delays : List Nat
deriving Repr

/-- A failure ApiResponse as built throughout request. -/
def failureResponse (code message : String) (details : Option String)
    (now : String) : ApiResponse :=
  { success := false, data := none
    error := some { code := code, message := message, details := details }
    timestamp := now }

/-- The success ApiResponse built at the end of request. -/
def successResponse (d : String) (now : String) : ApiResponse :=
  { success := true, data := some d, error := none, timestamp := now }

/-- DiabetesMClient.request from src/api/client.ts.  `waitForRateLimit`
(modelled separately) and `ensureAuthenticated` run before the try block;
a login failure inside `ensureAuthenticated` therefore escapes as a thrown
error.  Inside the try block: 401 triggers handleAuthError and at most one
re-issued request; 429 honours Retry-After and retries up to MAX_RETRIES;
a retryable status backs off exponentially up to MAX_RETRIES; any other
non-OK status returns an InvalidResponse result; a thrown AbortError
returns a timed-out NetworkError result; any other thrown error retries
with backoff up to MAX_RETRIES and then returns a NetworkError result. -/
def request (env : RequestEnv) (retryCount : Nat) : ReqResult :=
  if env.ensureAuthOk = false then
    { outcome := Except.error
        "Authentication required. Please configure credentials first."
      calls := 0, delays := [] }
  else
    match env.fetchAt retryCount with
    | FetchOutcome.response status retryAfterSecs bodyText jsonBody =>
      if status = 401 then
        match env.reauthAt retryCount with
        | ReauthOutcome.success =>
          if _h : retryCount < 1 then
            let r := request env (retryCount + 1)
            { outcome := r.outcome, calls := r.calls + 1, delays := r.delays }
          else
            { outcome := Except.ok (failureResponse ERROR_CODES.SESSION_EXPIRED
                "Session expired" none env.nowIso)
              calls := 1, delays := [] }
        | ReauthOutcome.failure =>
          { outcome := Except.ok (failureResponse ERROR_CODES.SESSION_EXPIRED
              "Session expired" none env.nowIso)
            calls := 1, delays := [] }
        | ReauthOutcome.thrown message =>
          if _h : retryCount < RETRY_CONFIG.MAX_RETRIES then
            let r := request env (retryCount + 1)
            { outcome := r.outcome, calls := r.calls + 1
              delays := backoffDelay retryCount :: r.delays }
          else
            { outcome := Except.ok (failureResponse ERROR_CODES.NETWORK_ERROR
                message none env.nowIso)
              calls := 1, delays := [] }
      else if status = 429 then
        if _h : retryCount < RETRY_CONFIG.MAX_RETRIES then
          let r := request env (retryCount + 1)
          { outcome := r.outcome, calls := r.calls + 1
            delays := retryAfterSecs * 1000 :: r.delays }
        else
          { outcome := Except.ok (failureResponse ERROR_CODES.RATE_LIMITED
              "Rate limited" none env.nowIso)
            calls := 1, delays := [] }
      else if _h : status ∈ RETRY_CONFIG.RETRYABLE_STATUS_CODES ∧
          retryCount < RETRY_CONFIG.MAX_RETRIES then
        let r := request env (retryCount + 1)
        { outcome := r.outcome, calls := r.calls + 1
          delays := backoffDelay retryCount :: r.delays }
      else if statusOk status = false then
        { outcome := Except.ok (failureResponse ERROR_CODES.INVALID_RESPONSE
            ("Request failed: " ++ toString status) (some bodyText) env.nowIso)
          calls := 1, delays := [] }
      else
        match jsonBody with
        | Except.ok d =>
          { outcome := Except.ok (successResponse d env.nowIso)
            calls := 1, delays := [] }
        | Except.error message =>
          if _h : retryCount < RETRY_CONFIG.MAX_RETRIES then
            let r := request env (retryCount + 1)
            { outcome := r.outcome, calls := r.calls + 1
              delays := backoffDelay retryCount :: r.delays }
          else
            { outcome := Except.ok (failureResponse ERROR_CODES.NETWORK_ERROR
                message none env.nowIso)
              calls := 1, delays := [] }
    | FetchOutcome.abortError =>
      { outcome := Except.ok (failureResponse ERROR_CODES.NETWORK_ERROR
          "Request timed out" none env.nowIso)
        calls := 1, delays := [] }
    | FetchOutcome.networkError message =>
      if _h : retryCount < RETRY_CONFIG.MAX_RETRIES then
        let r := request env (retryCount + 1)
        { outcome := r.outcome, calls := r.calls + 1
          delays := backoffDelay retryCount :: r.delays }
      else
        { outcome := Except.ok (failureResponse ERROR_CODES.NETWORK_ERROR
            message none env.nowIso)
          calls := 1, delays := [] }
termination_by RETRY_CONFIG.MAX_RETRIES + 1 - retryCount
decreasing_by
  all_goals simp only [RETRY_CONFIG] at _h ⊢
  all_goals omega

/-- One unfolding step of request under a successful ensureAuthenticated:
either the current invocation returns a result value, or it recurses with
an incremented retry counter (which the guards only allow below
MAX_RETRIES) and passes the recursive outcome through unchanged. -/
theorem request_outcome_step (env : RequestEnv) (h : env.ensureAuthOk = true)
    (rc : Nat) :
    (∃ r, (request env rc).outcome = Except.ok r) ∨
    (rc < RETRY_CONFIG.MAX_RETRIES ∧
      (request env rc).outcome = (request env (rc + 1)).outcome) := by
  rw [request.eq_def, h, if_neg (by simp : ¬ (true = false))]
  repeat' split
  all_goals try exact Or.inl ⟨_, rfl⟩
  all_goals refine Or.inr ⟨?_, rfl⟩
  all_goals simp only [RETRY_CONFIG] at *
  all_goals omega

/-- C3 amended: whenever ensureAuthenticated succeeds, request never
throws — every HTTP outcome (401 with failed or exhausted
re-authentication, 429, retryable statuses, timeouts, network errors,
JSON parse errors and other non-OK statuses) is returned as a
discriminated ApiResponse result value. -/
theorem c3_result_when_authenticated (env : RequestEnv)
    (h : env.ensureAuthOk = true) (retryCount : Nat) :
    ∃ r, (request env retryCount).outcome = Except.ok r := by
  have main : ∀ n rc, RETRY_CONFIG.MAX_RETRIES + 1 - rc ≤ n →
      ∃ r, (request env rc).outcome = Except.ok r := by
    intro n
    induction n with
    | zero =>
      intro rc hrc
      rcases request_outcome_step env h rc with hok | ⟨hlt, _⟩
      · exact hok
      · exfalso
        simp only [RETRY_CONFIG] at hrc hlt
        omega
    | succ n ih =>
      intro rc hrc
      rcases request_outcome_step env h rc with hok | ⟨hlt, heq⟩
      · exact hok
      · rw [heq]
        exact ih (rc + 1) (by simp only [RETRY_CONFIG] at hrc hlt ⊢; omega)
  exact main (RETRY_CONFIG.MAX_RETRIES + 1) retryCount (Nat.sub_le _ _)

/-- Witness environment for the C3 amendment. -/
def c3OkEnv : RequestEnv :=
  { fetchAt := fun _ => FetchOutcome.response 200 60 "" (Except.ok "payload")
    ensureAuthOk := true
    reauthAt := fun _ => ReauthOutcome.success
    nowIso := "t" }

/-- Witness for the C3 amendment at a concrete environment. -/
theorem c3_witness :
    c3OkEnv.ensureAuthOk = true ∧
    ∃ r, (request c3OkEnv 0).outcome = Except.ok r :=
  ⟨rfl, c3_result_when_authenticated c3OkEnv rfl 0⟩

/-- Environment in which login fails, so ensureAuthenticated throws. -/
def c3FailEnv : RequestEnv :=
  { fetchAt := fun _ => FetchOutcome.response 200 60 "" (Except.ok "payload")
    ensureAuthOk := false
    reauthAt := fun _ => ReauthOutcome.success
    nowIso := "t" }

/-- C3 counterexample: when ensureAuthenticated fails (no stored
credentials, or the remote login rejects them), request propagates the
thrown authentication error instead of returning a discriminated result,
because ensureAuthenticated runs before the try block of request. -/
theorem c3_counterexample :
    (request c3FailEnv 0).outcome =
      Except.error
        "Authentication required. Please configure credentials first." := by
  rw [request.eq_def]
  simp [c3FailEnv]

/-- The retryable status codes of RETRY_CONFIG other than 401 and 429,
whose handling is the plain exponential-backoff path of request. -/
def retryableNon429 : List Nat := [408, 500, 502, 503, 504]

theorem retryable_status_facts (s : Nat) (hs : s ∈ retryableNon429) :
    s ≠ 401 ∧ s ≠ 429 ∧ s ∈ RETRY_CONFIG.RETRYABLE_STATUS_CODES ∧
      statusOk s = false := by
  fin_cases hs <;> decide

/-- C4: if every HTTP attempt yields a retryable (non-429) status, request
performs exactly MAX_RETRIES + 1 = 4 fetch calls, sleeping the exponential
backoff of min of INITIAL_DELAY times BACKOFF_FACTOR to the attempt and
MAX_DELAY before each retry, and then returns an InvalidResponse failure
result instead of retrying further. -/
theorem c4_retry_exhaustion (env : RequestEnv) (h : env.ensureAuthOk = true)
    (hall : ∀ n, ∃ status retryAfterSecs bodyText jsonBody,
      env.fetchAt n = FetchOutcome.response status retryAfterSecs bodyText
        jsonBody ∧ status ∈ retryableNon429) :
    (request env 0).calls = RETRY_CONFIG.MAX_RETRIES + 1 ∧
    (request env 0).delays = [backoffDelay 0, backoffDelay 1, backoffDelay 2] ∧
    ∃ status bodyText, status ∈ retryableNon429 ∧
      (request env 0).outcome = Except.ok (failureResponse
        ERROR_CODES.INVALID_RESPONSE ("Request failed: " ++ toString status)
        (some bodyText) env.nowIso) := by
  have step : ∀ rc s ra b j, rc < RETRY_CONFIG.MAX_RETRIES →
      env.fetchAt rc = FetchOutcome.response s ra b j →
      s ∈ retryableNon429 →
      request env rc = ⟨(request env (rc + 1)).outcome,
        (request env (rc + 1)).calls + 1,
        backoffDelay rc :: (request env (rc + 1)).delays⟩ := by
    intro rc s ra b j hlt hf hs
    obtain ⟨h401, h429, hmem, _⟩ := retryable_status_facts s hs
    rw [request.eq_def, h, if_neg (by simp : ¬ (true = false)), hf]
    dsimp only
    rw [if_neg h401, if_neg h429, dif_pos ⟨hmem, hlt⟩]
  obtain ⟨s0, ra0, b0, j0, hf0, hm0⟩ := hall 0
  obtain ⟨s1, ra1, b1, j1, hf1, hm1⟩ := hall 1
  obtain ⟨s2, ra2, b2, j2, hf2, hm2⟩ := hall 2
  obtain ⟨s3, ra3, b3, j3, hf3, hm3⟩ := hall 3
  have e3 : request env 3 = ⟨Except.ok (failureResponse
      ERROR_CODES.INVALID_RESPONSE ("Request failed: " ++ toString s3)
      (some b3) env.nowIso), 1, []⟩ := by
    obtain ⟨h401, h429, hmem, hok⟩ := retryable_status_facts s3 hm3
    rw [request.eq_def, h, if_neg (by simp : ¬ (true = false)), hf3]
    dsimp only
    rw [if_neg h401, if_neg h429,
      dif_neg (by simp only [RETRY_CONFIG]; omega :
        ¬ (s3 ∈ RETRY_CONFIG.RETRYABLE_STATUS_CODES ∧
          3 < RETRY_CONFIG.MAX_RETRIES)),
      if_pos hok]
  have e2 := step 2 s2 ra2 b2 j2 (by simp [RETRY_CONFIG]) hf2 hm2
  have e1 := step 1 s1 ra1 b1 j1 (by simp [RETRY_CONFIG]) hf1 hm1
  have e0 := step 0 s0 ra0 b0 j0 (by simp [RETRY_CONFIG]) hf0 hm0
  rw [e3] at e2
  rw [e2] at e1
  rw [e1] at e0
  rw [e0]
  exact ⟨rfl, rfl, s3, b3, hm3, rfl⟩

/-- Witness environment for C4: HTTP 503 on every attempt. -/
def c4Env : RequestEnv :=
  { fetchAt := fun _ =>
      FetchOutcome.response 503 60 "Service Unavailable" (Except.error "html")
    ensureAuthOk := true
    reauthAt := fun _ => ReauthOutcome.failure
    nowIso := "t" }

/-- Witness for C4 at the concrete all-503 environment. -/
theorem c4_witness :
    c4Env.ensureAuthOk = true ∧
    (∀ n, ∃ status retryAfterSecs bodyText jsonBody,
      c4Env.fetchAt n = FetchOutcome.response status retryAfterSecs bodyText
        jsonBody ∧ status ∈ retryableNon429) ∧
    (request c4Env 0).calls = RETRY_CONFIG.MAX_RETRIES + 1 :=
  ⟨rfl,
   fun _ => ⟨503, 60, "Service Unavailable", Except.error "html", rfl,
     by decide⟩,
   (c4_retry_exhaustion c4Env rfl
     (fun _ => ⟨503, 60, "Service Unavailable", Except.error "html", rfl,
       by decide⟩)).1⟩

/-! ## Rate limiter: DiabetesMClient.waitForRateLimit from
src/api/client.ts. -/

/-- RateLimiterState from src/api/client.ts. -/
structure RateLimiterState where
  lastRequest : Nat
  tokens : Int
  lastRefill : Nat
deriving Repr, DecidableEq

/-- The rate limiter DiabetesMClient starts with: a full bucket of BURST
tokens, lastRefill stamped at construction time, lastRequest 0. -/
def initialRateLimiter (now : Nat) : RateLimiterState :=
  { lastRequest := 0, tokens := (RATE_LIMIT.BURST : Int), lastRefill := now }

/-- DiabetesMClient.waitForRateLimit from src/api/client.ts as a pure
state transition at millisecond time `now`: refill
floor(timePassed / INTERVAL_MS) tokens clamped to BURST; if no token is
available, suspend once for the exact remaining wait
INTERVAL_MS - (now - lastRequest) when positive, set tokens to 1;
finally consume a token and stamp lastRequest with the post-sleep time.
Returns the milliseconds slept and the new state. -/
def waitForRateLimit (now : Nat) (st : RateLimiterState) :
    Nat × RateLimiterState :=
  let timePassed := now - st.lastRefill
  let tokensToAdd := timePassed / RATE_LIMIT.INTERVAL_MS
  let st1 := if tokensToAdd > 0 then
      { st with
        tokens := min (RATE_LIMIT.BURST : Int) (st.tokens + tokensToAdd)
        lastRefill := now }
    else st
  if st1.tokens ≤ 0 then
    let waitTime : Int :=
      (RATE_LIMIT.INTERVAL_MS : Int) - ((now - st1.lastRequest : Nat) : Int)
    let waited := waitTime.toNat
    (waited,
      { lastRequest := now + waited, tokens := 0, lastRefill := st1.lastRefill })
  else
    (0, { st1 with tokens := st1.tokens - 1, lastRequest := now })

/-- A sequence of n acquisitions at a fixed time, returning the list of
waits and the final state. -/
def acquireSeq (now : Nat) : Nat → RateLimiterState →
    List Nat × RateLimiterState
  | 0, st => ([], st)
  | n + 1, st =>
    let p := waitForRateLimit now st
    let q := acquireSeq now n p.2
    (p.1 :: q.1, q.2)

/-- C5: from a freshly constructed (full) bucket, five consecutive
acquisitions at the same instant all complete with zero wait; a sixth
immediate acquisition suspends for exactly INTERVAL_MS = 1000 ms, computed
once from the bucket state; and the refill always clamps the token count
to at most BURST. -/
theorem c5_token_bucket (t0 : Nat) :
    (acquireSeq t0 5 (initialRateLimiter t0)).1 = [0, 0, 0, 0, 0] ∧
    (waitForRateLimit t0 (acquireSeq t0 5 (initialRateLimiter t0)).2).1 =
      RATE_LIMIT.INTERVAL_MS ∧
    (∀ now st, st.tokens ≤ (RATE_LIMIT.BURST : Int) →
      ((waitForRateLimit now st).2).tokens ≤ (RATE_LIMIT.BURST : Int)) := by
  refine ⟨?_, ?_, ?_⟩
  · simp [acquireSeq, waitForRateLimit, initialRateLimiter, RATE_LIMIT,
      Nat.sub_self]
  · simp [acquireSeq, waitForRateLimit, initialRateLimiter, RATE_LIMIT,
      Nat.sub_self]
  · intro now st h
    unfold waitForRateLimit
    dsimp only
    split_ifs
    all_goals simp_all [RATE_LIMIT]
    all_goals omega

/-- Witness for C5 at a concrete start time and a concrete state for the
clamping conjunct. -/
theorem c5_witness :
    (acquireSeq 2000 5 (initialRateLimiter 2000)).1 = [0, 0, 0, 0, 0] ∧
    (⟨1500, 3, 1000⟩ : RateLimiterState).tokens ≤ (RATE_LIMIT.BURST : Int) ∧
    ((waitForRateLimit 2100 ⟨1500, 3, 1000⟩).2).tokens ≤
      (RATE_LIMIT.BURST : Int) :=
  ⟨(c5_token_bucket 2000).1, by decide,
    (c5_token_bucket 0).2.2 2100 ⟨1500, 3, 1000⟩ (by decide)⟩

/-! ## Encrypted cache: src/cache/encrypted-cache.ts. -/

/-- The payload of a cache entry from src/cache/encrypted-cache.ts.  The
source stores `data` of type T-or-string together with a boolean
`encrypted` flag that set keeps in sync with the variant; they are
modelled as one sum: `plain v` is an unencrypted payload (flag false) and
`enc bytes` holds the `data` field of the EncryptedData produced by
encrypt (flag true). -/
inductive CachePayload (V : Type) where
  | plain (value : V)
  | enc (bytes : List Nat)
deriving DecidableEq

/-- CacheEntry from src/cache/encrypted-cache.ts. -/
structure CacheEntry (V : Type) where
  data : CachePayload V
  expiresAt : Nat
  createdAt : Nat
deriving DecidableEq

/-- The Map of the cache, keyed by hashed keys. -/
def Cache (V : Type) := String → Option (CacheEntry V)

/-- Map.set on the cache. -/
def Cache.insert (c : Cache V) (k : String) (e : CacheEntry V) : Cache V :=
  fun x => if x = k then some e else c x

/-- Map.delete on the cache. -/
def Cache.eraseKey (c : Cache V) (k : String) : Cache V :=
  fun x => if x = k then none else c x

/-- The empty cache. -/
def emptyCache (V : Type) : Cache V := fun _ => none

/-- Environment of the cache: the crypto primitives, the SHA-256 key
hash, keyringManager.getMasterKey (none models a throw), and JSON
serialization of the cached value type (deserialize is none when
JSON.parse throws). -/
structure CacheEnv (V : Type) where
  crypto : CryptoModel
  hashKey : String → String
  masterKey : Option (List Nat)
  serialize : V → List Nat
  deserialize : List Nat → Option V

/-- EncryptedCache.set from src/cache/encrypted-cache.ts.  The salt and
IV consumed by the encryption are explicit: when `encrypt` is true the
value is serialized and encrypted under the lazily fetched master key;
the entry expires at now + ttlMs.  set is not wrapped in try/catch, so a
master-key retrieval failure propagates: that case is `none`. -/
def EncryptedCache.set (env : CacheEnv V) (salt iv : List Nat) (ts : String)
    (c : Cache V) (key : String) (value : V) (ttlMs : Nat) (encrypt : Bool)
    (now : Nat) : Option (Cache V) :=
  let hashedKey := env.hashKey key
  if encrypt then
    match env.masterKey with
    | none => none
    | some mk =>
      let ed := EncryptionService.encrypt env.crypto DEFAULT_SECURITY_CONFIG
        salt iv (env.serialize value) mk ts
      some (c.insert hashedKey
        { data := CachePayload.enc ed.data, expiresAt := now + ttlMs
          createdAt := now })
  else
    some (c.insert hashedKey
      { data := CachePayload.plain value, expiresAt := now + ttlMs
        createdAt := now })

/-- The decryption pipeline of EncryptedCache.get for an encrypted entry:
fetch the master key, decrypt the stored bytes as a version-1 blob with
empty timestamp (the object literal rebuilt by get), and JSON-parse the
plaintext; every failure in the pipeline is none. -/
def decryptCachePayload (env : CacheEnv V) (bytes : List Nat) : Option V :=
  match env.masterKey with
  | none => none
  | some mk =>
    match EncryptionService.decrypt env.crypto DEFAULT_SECURITY_CONFIG
        ⟨bytes, 1, ""⟩ mk with
    | none => none
    | some pt => env.deserialize pt

/-- EncryptedCache.get from src/cache/encrypted-cache.ts: a missing entry
is a miss; an entry with now past expiresAt is evicted and a miss; an
encrypted entry whose decrypt pipeline fails (the try/catch around it in
the source swallows the error) is evicted and a miss; otherwise the value
is returned.  Returns the result and the updated cache. -/
def EncryptedCache.get (env : CacheEnv V) (c : Cache V) (key : String)
    (now : Nat) : Option V × Cache V :=
  let hashedKey := env.hashKey key
  match c hashedKey with
  | none => (none, c)
  | some entry =>
    if now > entry.expiresAt then (none, c.eraseKey hashedKey)
    else
      match entry.data with
      | CachePayload.enc bytes =>
        match decryptCachePayload env bytes with
        | none => (none, c.eraseKey hashedKey)
        | some v => (some v, c)
      | CachePayload.plain v => (some v, c)

/-- C6 amended: an entry cached with ttlMs = T at time `now` is present
(get returns the cached value) at every read time up to and including
now + T, and is a miss, with the entry evicted, strictly after now + T;
the expiry comparison of get is strict (`Date.now() > entry.expiresAt`),
so at exactly T elapsed the entry is still served. -/
theorem c6_ttl_boundaries (env : CacheEnv V) (salt iv : List Nat)
    (ts : String) (c c2 : Cache V) (key : String) (value : V) (ttlMs : Nat)
    (encrypt : Bool) (now readTime : Nat)
    (hsalt : salt.length = 64) (hiv : iv.length = 16)
    (htag : env.crypto.TagLen16) (hround : env.crypto.Roundtrip)
    (hser : env.deserialize (env.serialize value) = some value)
    (hset : EncryptedCache.set env salt iv ts c key value ttlMs encrypt now
      = some c2) :
    (readTime ≤ now + ttlMs →
      (EncryptedCache.get env c2 key readTime).1 = some value) ∧
    (now + ttlMs < readTime →
      (EncryptedCache.get env c2 key readTime).1 = none ∧
      ((EncryptedCache.get env c2 key readTime).2) (env.hashKey key)
        = none) := by
  unfold EncryptedCache.set at hset
  dsimp only at hset
  have hget : ∀ e, c2 (env.hashKey key) = some e →
      e.expiresAt = now + ttlMs ∧
      (e.data = CachePayload.plain value ∨
       ∃ mk, env.masterKey = some mk ∧
         e.data = CachePayload.enc (EncryptionService.encrypt env.crypto
           DEFAULT_SECURITY_CONFIG salt iv (env.serialize value) mk
           ts).data) := by
    intro e he
    by_cases hencrypt : encrypt
    · rw [if_pos hencrypt] at hset
      cases hmk : env.masterKey with
      | none => rw [hmk] at hset; exact absurd hset (by simp)
      | some mk =>
        rw [hmk] at hset
        have hc2 := (Option.some.injEq _ _).mp hset
        rw [← hc2] at he
        unfold Cache.insert at he
        rw [if_pos rfl] at he
        have he2 := (Option.some.injEq _ _).mp he
        rw [← he2]
        exact ⟨rfl, Or.inr ⟨mk, rfl, rfl⟩⟩
    · rw [if_neg hencrypt] at hset
      have hc2 := (Option.some.injEq _ _).mp hset
      rw [← hc2] at he
      unfold Cache.insert at he
      rw [if_pos rfl] at he
      have he2 := (Option.some.injEq _ _).mp he
      rw [← he2]
      exact ⟨rfl, Or.inl rfl⟩
  have hmem : ∃ e, c2 (env.hashKey key) = some e := by
    by_cases hencrypt : encrypt
    · rw [if_pos hencrypt] at hset
      cases hmk : env.masterKey with
      | none => rw [hmk] at hset; exact absurd hset (by simp)
      | some mk =>
        rw [hmk] at hset
        have hc2 := (Option.some.injEq _ _).mp hset
        rw [← hc2]
        exact ⟨_, by unfold Cache.insert; rw [if_pos rfl]⟩
    · rw [if_neg hencrypt] at hset
      have hc2 := (Option.some.injEq _ _).mp hset
      rw [← hc2]
      exact ⟨_, by unfold Cache.insert; rw [if_pos rfl]⟩
  obtain ⟨e, he⟩ := hmem
  obtain ⟨hexp, hdata⟩ := hget e he
  constructor
  · intro hle
    unfold EncryptedCache.get
    dsimp only
    rw [he]
    dsimp only
    rw [if_neg (by omega : ¬ readTime > e.expiresAt)]
    rcases hdata with hplain | ⟨mk, hmk, henc⟩
    · rw [hplain]
    · rw [henc]
      have hdec : decryptCachePayload env (EncryptionService.encrypt
          env.crypto DEFAULT_SECURITY_CONFIG salt iv (env.serialize value)
          mk ts).data = some value := by
        unfold decryptCachePayload
        rw [hmk]
        dsimp only
        have hblob : (⟨(EncryptionService.encrypt env.crypto
            DEFAULT_SECURITY_CONFIG salt iv (env.serialize value) mk
            ts).data, 1, ""⟩ : EncryptedData) =
            EncryptionService.encrypt env.crypto DEFAULT_SECURITY_CONFIG
              salt iv (env.serialize value) mk "" := by
          unfold EncryptionService.encrypt
          simp [ENCRYPTION_VERSION]
        rw [hblob, decrypt_encrypt_eq env.crypto
          (env.serialize value) mk salt iv "" hsalt hiv htag hround]
        dsimp only
        exact hser
      dsimp only
      rw [hdec]
  · intro hgt
    unfold EncryptedCache.get
    dsimp only
    rw [he]
    dsimp only
    rw [if_pos (by omega : readTime > e.expiresAt)]
    exact ⟨rfl, by simp [Cache.eraseKey]⟩

/-- A concrete cache environment over Nat values for evaluating the cache
theorems. -/
def natCacheEnv : CacheEnv Nat :=
  { crypto := toyCrypto
    hashKey := fun k => k
    masterKey := some (List.replicate 32 1)
    serialize := fun n => [n]
    deserialize := fun l => l.head? }

/-- The cache produced by the concrete encrypted set of the C6 witness. -/
def c6CacheAfterSet : Cache Nat :=
  (emptyCache Nat).insert "k"
    { data := CachePayload.enc (EncryptionService.encrypt toyCrypto
        DEFAULT_SECURITY_CONFIG (List.replicate 64 0) (List.replicate 16 0)
        [7] (List.replicate 32 1) "tx").data
      expiresAt := 0 + 5, createdAt := 0 }

/-- Witness for the C6 amendment: a concrete encrypted entry with
ttlMs = 5 set at time 0 is still served at read time 3. -/
theorem c6_witness :
    EncryptedCache.set natCacheEnv (List.replicate 64 0) (List.replicate 16 0)
      "tx" (emptyCache Nat) "k" 7 5 true 0 = some c6CacheAfterSet ∧
    (EncryptedCache.get natCacheEnv c6CacheAfterSet "k" 3).1 = some 7 :=
  ⟨rfl,
    (c6_ttl_boundaries natCacheEnv (List.replicate 64 0) (List.replicate 16 0)
      "tx" (emptyCache Nat) c6CacheAfterSet "k" 7 5 true 0 3 (by simp)
      (by simp) toyCrypto_tagLen16 toyCrypto_roundtrip rfl rfl).1
      (by omega)⟩

/-- The cache produced by a plain set with ttlMs = 5 at time 0. -/
def c6PlainEntryCache : Cache Nat :=
  (emptyCache Nat).insert "k"
    { data := CachePayload.plain 7, expiresAt := 0 + 5, createdAt := 0 }

/-- C6 counterexample: the expiry comparison of get is strict, so at a
read time of exactly T milliseconds after set (here T = 5, set at 0, read
at 5 = expiresAt) get still returns the value instead of the miss the
claim requires at or after T. -/
theorem c6_counterexample :
    EncryptedCache.set natCacheEnv (List.replicate 64 0) (List.replicate 16 0)
      "t" (emptyCache Nat) "k" 7 5 false 0 = some c6PlainEntryCache ∧
    (EncryptedCache.get natCacheEnv c6PlainEntryCache "k" 5).1 = some 7 :=
  ⟨rfl, rfl⟩

/-- C7: an unexpired cache entry holding encrypted bytes whose decryption
pipeline fails (corrupted ciphertext, wrong master key, or master-key
retrieval failure) is evicted by get, which returns a miss; get is a total
function, so it never throws, and the miss carries no data. -/
theorem c7_decrypt_failure_self_heal (env : CacheEnv V) (c : Cache V)
    (key : String) (now : Nat) (entry : CacheEntry V) (bytes : List Nat)
    (hentry : c (env.hashKey key) = some entry)
    (hexp : ¬ now > entry.expiresAt)
    (hdata : entry.data = CachePayload.enc bytes)
    (hfail : decryptCachePayload env bytes = none) :
    EncryptedCache.get env c key now = (none, c.eraseKey (env.hashKey key)) ∧
    ((EncryptedCache.get env c key now).2) (env.hashKey key) = none := by
  have hmain : EncryptedCache.get env c key now
      = (none, c.eraseKey (env.hashKey key)) := by
    unfold EncryptedCache.get
    dsimp only
    rw [hentry]
    dsimp only
    rw [if_neg hexp, hdata]
    dsimp only
    rw [hfail]
  refine ⟨hmain, ?_⟩
  rw [hmain]
  simp [Cache.eraseKey]

/-- Cache environment of the C7 witness: the master-key retrieval throws. -/
def c7Env : CacheEnv Nat :=
  { crypto := toyCrypto
    hashKey := fun k => k
    masterKey := none
    serialize := fun n => [n]
    deserialize := fun l => l.head? }

/-- A cache holding one unexpired encrypted entry for the C7 witness. -/
def c7Cache : Cache Nat :=
  (emptyCache Nat).insert "k"
    { data := CachePayload.enc [9, 9], expiresAt := 100, createdAt := 0 }

/-- Witness for C7 at a concrete failing decryption. -/
theorem c7_witness :
    c7Cache "k" = some
      { data := CachePayload.enc [9, 9], expiresAt := 100, createdAt := 0 } ∧
    ¬ (10 : Nat) > 100 ∧
    decryptCachePayload c7Env [9, 9] = none ∧
    ((EncryptedCache.get c7Env c7Cache "k" 10).2) "k" = none :=
  ⟨rfl, by decide, rfl,
    (c7_decrypt_failure_self_heal c7Env c7Cache "k" 10
      { data := CachePayload.enc [9, 9], expiresAt := 100, createdAt := 0 }
      [9, 9] rfl (by decide) rfl rfl).2⟩

/-! ## Credentials manager: src/security/credentials.ts. -/

/-- StoredTokens from src/types/security.ts; expiresAt is the parsed
Date value in milliseconds. -/
structure StoredTokens where
  accessToken : EncryptedData
  sessionId : Option EncryptedData
  expiresAt : Nat
  createdAt : String
deriving Repr, DecidableEq

/-- The tokens file on disk: absent, present but failing JSON.parse, or a
parsed StoredTokens document. -/
inductive TokensFile where
  | missing
  | corrupt
  | stored (d : StoredTokens)
deriving Repr, DecidableEq

/-- Environment of the credentials manager: the crypto primitives and
keyringManager.getMasterKey (none models a throw, such as a fallback
key-file decrypt failure). -/
structure SecretsEnv where
  crypto : CryptoModel
  masterKey : Option (List Nat)

/-- CredentialsManager.getTokens from src/security/credentials.ts: a
missing file is reported absent; otherwise ensureMasterKey runs first (its
throw is caught, reporting absent without touching the file), then the
file is parsed (a parse throw likewise reports absent without touching the
file), the expiry is checked (an expired document is deleted and reported
absent), and only then are the tokens decrypted and returned (a decrypt
throw is caught, reporting absent without touching the file).  Returns the
result and the new file state. -/
def CredentialsManager.getTokens (env : SecretsEnv) (now : Nat)
    (file : TokensFile) :
    Option (List Nat × Option (List Nat)) × TokensFile :=
  match file with
  | TokensFile.missing => (none, TokensFile.missing)
  | TokensFile.corrupt => (none, TokensFile.corrupt)
  | TokensFile.stored d =>
    match env.masterKey with
    | none => (none, TokensFile.stored d)
    | some mk =>
      if d.expiresAt ≤ now then (none, TokensFile.missing)
      else
        match EncryptionService.decrypt env.crypto DEFAULT_SECURITY_CONFIG
            d.accessToken mk with
        | none => (none, TokensFile.stored d)
        | some tok =>
          match d.sessionId with
          | none => (some (tok, none), TokensFile.stored d)
          | some sid =>
            match EncryptionService.decrypt env.crypto
                DEFAULT_SECURITY_CONFIG sid mk with
            | none => (none, TokensFile.stored d)
            | some s => (some (tok, some s), TokensFile.stored d)

/-- C8 amended: getTokens never returns an expired session — for every
stored document whose expiresAt is in the past at read time
(expiresAt < now), getTokens returns null, never the stale token, and the
tokens file is deleted whenever the master key is retrievable; when
master-key retrieval throws, the expired file is left in place (the
expiry check is only reached after ensureMasterKey).  A returned token
always comes from a stored document that is unexpired at read time. -/
theorem c8_expired_tokens (env : SecretsEnv) (now : Nat) (d : StoredTokens)
    (hexp : d.expiresAt < now) :
    (CredentialsManager.getTokens env now (TokensFile.stored d)).1 = none ∧
    (∀ mk, env.masterKey = some mk →
      (CredentialsManager.getTokens env now (TokensFile.stored d)).2
        = TokensFile.missing) ∧
    (∀ (env2 : SecretsEnv) (now2 : Nat) (f : TokensFile) r,
      (CredentialsManager.getTokens env2 now2 f).1 = some r →
      ∃ d2, f = TokensFile.stored d2 ∧ now2 < d2.expiresAt) := by
  refine ⟨?_, ?_, ?_⟩
  · unfold CredentialsManager.getTokens
    cases env.masterKey with
    | none => rfl
    | some mk =>
      dsimp only
      rw [if_pos (by omega : d.expiresAt ≤ now)]
  · intro mk hmk
    unfold CredentialsManager.getTokens
    rw [hmk]
    dsimp only
    rw [if_pos (by omega : d.expiresAt ≤ now)]
  · intro env2 now2 f r h
    cases f with
    | missing => exact absurd h (by simp [CredentialsManager.getTokens])
    | corrupt => exact absurd h (by simp [CredentialsManager.getTokens])
    | stored d2 =>
      refine ⟨d2, rfl, ?_⟩
      unfold CredentialsManager.getTokens at h
      cases hmk : env2.masterKey with
      | none => rw [hmk] at h; exact absurd h (by simp)
      | some mk =>
        rw [hmk] at h
        dsimp only at h
        by_cases hle : d2.expiresAt ≤ now2
        · rw [if_pos hle] at h
          exact absurd h (by simp)
        · omega

/-- Environment of the C8 counterexample: master-key retrieval throws
(for instance the machine-bound fallback key file fails to decrypt). -/
def c8Env : SecretsEnv :=
  { crypto := toyCrypto, masterKey := none }

/-- The expired stored-session document of the C8 counterexample. -/
def c8Doc : StoredTokens :=
  { accessToken := ⟨[1, 2], 1, "t"⟩, sessionId := none, expiresAt := 5
    createdAt := "c" }

/-- C8 counterexample: with an expired stored document (expiresAt 5, read
at 10) and a master-key retrieval failure, getTokens returns null but does
not delete the tokens file, contradicting the claim that an expired
document is always deleted. -/
theorem c8_counterexample :
    c8Doc.expiresAt < 10 ∧
    CredentialsManager.getTokens c8Env 10 (TokensFile.stored c8Doc)
      = (none, TokensFile.stored c8Doc) ∧
    (CredentialsManager.getTokens c8Env 10 (TokensFile.stored c8Doc)).2
      ≠ TokensFile.missing := by
  refine ⟨by decide, rfl, by decide⟩

/-- Witness for the C8 amendment at a concrete expired document with an
available master key. -/
theorem c8_witness :
    c8Doc.expiresAt < 10 ∧
    (CredentialsManager.getTokens ⟨toyCrypto, some (List.replicate 32 1)⟩ 10
      (TokensFile.stored c8Doc)).1 = none ∧
    (CredentialsManager.getTokens ⟨toyCrypto, some (List.replicate 32 1)⟩ 10
      (TokensFile.stored c8Doc)).2 = TokensFile.missing :=
  ⟨by decide,
    (c8_expired_tokens ⟨toyCrypto, some (List.replicate 32 1)⟩ 10 c8Doc
      (by decide)).1,
    (c8_expired_tokens ⟨toyCrypto, some (List.replicate 32 1)⟩ 10 c8Doc
      (by decide)).2.1 (List.replicate 32 1) rfl⟩

/-! ## Config directory layout: src/types/security.ts (getConfigDir),
src/security/credentials.ts and src/security/audit.ts (CONFIG_DIR), and
src/security/keyring.ts (FALLBACK_KEY_FILE). -/

/-- node:path join for the two-segment case used here. -/
def joinPath (a b : String) : String := a ++ "/" ++ b

/-- The process.platform values distinguished by getConfigDir. -/
inductive Platform where
  | win32
  | darwin
  | linux
deriving Repr, DecidableEq

/-- The ambient OS state read by the path helpers. -/
structure OsEnv where
  homedir : String
  platform : Platform
  localAppData : Option String
  xdgConfigHome : Option String

/-- getConfigDir from src/types/security.ts: LOCALAPPDATA (or
AppData/Local) on Windows, Library/Application Support on macOS,
XDG_CONFIG_HOME (or .config) elsewhere, suffixed diabetes-m-mcp. -/
def getConfigDir (env : OsEnv) : String :=
  match env.platform with
  | Platform.win32 =>
    joinPath (env.localAppData.getD
      (joinPath (joinPath env.homedir "AppData") "Local")) "diabetes-m-mcp"
  | Platform.darwin =>
    joinPath (joinPath (joinPath env.homedir "Library") "Application Support")
      "diabetes-m-mcp"
  | Platform.linux =>
    joinPath (env.xdgConfigHome.getD (joinPath env.homedir ".config"))
      "diabetes-m-mcp"

/-- CONFIG_DIR as defined in src/security/credentials.ts and
src/security/audit.ts: join of homedir and .diabetesm — not
getConfigDir. -/
def credentialsConfigDir (env : OsEnv) : String :=
  joinPath env.homedir ".diabetesm"

/-- CREDENTIALS_FILE_NAME from src/types/security.ts. -/
def CREDENTIALS_FILE_NAME : String := "diabetesm-credentials.enc"

/-- TOKENS_FILE_NAME from src/types/security.ts. -/
def TOKENS_FILE_NAME : String := "diabetesm-tokens.enc"

/-- AUDIT_LOG_FILE_NAME from src/types/security.ts. -/
def AUDIT_LOG_FILE_NAME : String := "diabetesm-audit.log"

/-- CREDENTIALS_PATH from src/security/credentials.ts. -/
def CREDENTIALS_PATH (env : OsEnv) : String :=
  joinPath (credentialsConfigDir env) CREDENTIALS_FILE_NAME

/-- TOKENS_PATH from src/security/credentials.ts. -/
def TOKENS_PATH (env : OsEnv) : String :=
  joinPath (credentialsConfigDir env) TOKENS_FILE_NAME

/-- AUDIT_LOG_PATH from src/security/audit.ts. -/
def AUDIT_LOG_PATH (env : OsEnv) : String :=
  joinPath (credentialsConfigDir env) AUDIT_LOG_FILE_NAME

/-- FALLBACK_KEY_FILE from src/security/keyring.ts: master.key.enc inside
getConfigDir. -/
def FALLBACK_KEY_FILE (env : OsEnv) : String :=
  joinPath (getConfigDir env) "master.key.enc"

/-- C9 evidence: on Linux with home /home/u and no XDG override, the
credentials, tokens and audit-log files live under /home/u/.diabetesm,
while the fallback master-key file (and the per-OS config directory the
setup tool reports) lives under /home/u/.config/diabetes-m-mcp: the two
directories are not the same, contradicting the claim that all local
files of the secure layer share the per-OS config directory. -/
theorem c9_config_dirs_diverge :
    credentialsConfigDir ⟨"/home/u", Platform.linux, none, none⟩
      = "/home/u/.diabetesm" ∧
    getConfigDir ⟨"/home/u", Platform.linux, none, none⟩
      = "/home/u/.config/diabetes-m-mcp" ∧
    credentialsConfigDir ⟨"/home/u", Platform.linux, none, none⟩
      ≠ getConfigDir ⟨"/home/u", Platform.linux, none, none⟩ ∧
    CREDENTIALS_PATH ⟨"/home/u", Platform.linux, none, none⟩
      = "/home/u/.diabetesm/diabetesm-credentials.enc" ∧
    TOKENS_PATH ⟨"/home/u", Platform.linux, none, none⟩
      = "/home/u/.diabetesm/diabetesm-tokens.enc" ∧
    AUDIT_LOG_PATH ⟨"/home/u", Platform.linux, none, none⟩
      = "/home/u/.diabetesm/diabetesm-audit.log" ∧
    FALLBACK_KEY_FILE ⟨"/home/u", Platform.linux, none, none⟩
      = "/home/u/.config/diabetes-m-mcp/master.key.enc" := by
  refine ⟨rfl, rfl, by decide, rfl, rfl, rfl, rfl⟩

/-! ## Setup tool: executeSetupCredentials from
src/tools/setup-credentials.ts. -/

/-- Events observable during executeSetupCredentials, in order: the writes
of the credentials file and the remote verification attempt. -/
inductive SetupEvent where
  | store (email password : String)
  | remoteVerify (email password : String)
deriving Repr, DecidableEq

/-- Environment of the setup tool: whether
diabetesMClient.authenticate (authManager.login with the explicit
credentials) reports success. -/
structure SetupEnv where
  authOk : Bool

/-- The on-disk credentials store, abstracted to the plaintext pair the
stored encrypted document binds. -/
structure SetupState where
  credentialsFile : Option (String × String)
deriving Repr, DecidableEq

/-- The success flag and message of the SetupCredentialsResult returned by
executeSetupCredentials. -/
structure SetupCredentialsResult where
  success : Bool
  message : String
deriving Repr, DecidableEq

/-- The verified-successfully message of executeSetupCredentials. -/
def setupOkMessage : String :=
  "Credentials configured and verified successfully. You can now use all Diabetes:M tools."

/-- The saved-but-authentication-failed message of
executeSetupCredentials. -/
def setupAuthFailedMessage : String :=
  "Credentials saved but authentication failed. Please verify your email and password are correct for analytics.diabetes-m.com"

/-- executeSetupCredentials from src/tools/setup-credentials.ts: zod
validation (empty email or password throws, modelled as Except.error),
then credentialsManager.storeCredentials overwrites the stored file, then
diabetesMClient.authenticate verifies remotely (authManager.login stores
the explicit credentials a second time before its login attempt); the
result reports success or the saved-but-failed message.  No branch rolls
the stored file back. -/
def executeSetupCredentials (env : SetupEnv) (st : SetupState)
    (email password : String) :
    Except String SetupCredentialsResult × SetupState × List SetupEvent :=
  if email.length = 0 ∨ password.length = 0 then
    (Except.error "ValidationError", st, [])
  else
    let finalState : SetupState := { credentialsFile := some (email, password) }
    let events := [SetupEvent.store email password,
      SetupEvent.store email password,
      SetupEvent.remoteVerify email password]
    if env.authOk then
      (Except.ok ⟨true, setupOkMessage⟩, finalState, events)
    else
      (Except.ok ⟨false, setupAuthFailedMessage⟩, finalState, events)

/-- C10: executeSetupCredentials stores the new credentials before the
remote verification (both store events precede the verify event); when
verification fails it returns success false with the message referencing
failed authentication, and the store still holds the new credentials —
whatever it held before is not restored. -/
theorem c10_setup_persists_before_verify (env : SetupEnv) (st : SetupState)
    (email password : String) (he : email.length ≠ 0)
    (hp : password.length ≠ 0) (hauth : env.authOk = false) :
    executeSetupCredentials env st email password =
      (Except.ok ⟨false, setupAuthFailedMessage⟩,
       { credentialsFile := some (email, password) },
       [SetupEvent.store email password, SetupEvent.store email password,
        SetupEvent.remoteVerify email password]) := by
  unfold executeSetupCredentials
  rw [if_neg (by push_neg; exact ⟨he, hp⟩), hauth]
  rfl

/-- Witness for C10: failing verification of fresh credentials over a
store previously holding different ones. -/
theorem c10_witness :
    ("user@example.com").length ≠ 0 ∧
    ("newpw").length ≠ 0 ∧
    (SetupEnv.mk false).authOk = false ∧
    executeSetupCredentials (SetupEnv.mk false)
      { credentialsFile := some ("old@example.com", "oldpw") }
      "user@example.com" "newpw" =
      (Except.ok ⟨false, setupAuthFailedMessage⟩,
       { credentialsFile := some ("user@example.com", "newpw") },
       [SetupEvent.store "user@example.com" "newpw",
        SetupEvent.store "user@example.com" "newpw",
        SetupEvent.remoteVerify "user@example.com" "newpw"]) :=
  ⟨by decide, by decide, rfl,
    c10_setup_persists_before_verify (SetupEnv.mk false)
      { credentialsFile := some ("old@example.com", "oldpw") }
      "user@example.com" "newpw" (by decide) (by decide) rfl⟩

end DiabetesM
